import Mathlib

/-!
Shallow embedding of the dymensionxyz/cosmos-discord-faucet request-admission
core, translated from the Python sources:

* src/cosmos_discord_faucet.py — on_time_blocked, check_time_limits,
  check_daily_cap, revert_daily_consume, token_request, transaction_info,
  process_transactions_queue
* src/clients/faucet_client.py — FaucetClient configuration accessors,
  is_evm_network
* src/clients/cosmos_client.py — CosmosClient.tx_send

Modelling conventions: wall-clock timestamps and calendar dates are natural
numbers; token amounts and tallies are integers (rollback may drive a tally
below zero); Python dicts become association lists with first-match lookup and
in-place update; external I/O (Discord role lookup, balance query, transfer
submission, denom resolution) is supplied as explicit outcome oracles, with
an exception modelled as an error value.
-/

/-- Mirrors is_evm_network in src/clients/faucet_client.py:
re.search on the anchored pattern matching a nonempty run of characters other
than underscore and dash, an underscore, a nonempty digit run, an underscore
or dash, and a nonempty digit run to the end.  The character classes are
disjoint, so the regex is deterministic and equals this direct scan. -/
def is_evm_network (network_id : String) : Bool :=
  let cs := network_id.toList
  let head := cs.takeWhile (fun c => !(c = '_' || c = '-'))
  let rest1 := cs.dropWhile (fun c => !(c = '_' || c = '-'))
  match head, rest1 with
  | [], _ => false
  | _ :: _, '_' :: rest2 =>
    let d1 := rest2.takeWhile Char.isDigit
    let rest3 := rest2.dropWhile Char.isDigit
    match d1, rest3 with
    | [], _ => false
    | _ :: _, sep :: rest4 =>
      (sep = '_' || sep = '-') && (!rest4.isEmpty) && rest4.all Char.isDigit
    | _ :: _, [] => false
  | _ :: _, _ => false

/-- Per-environment faucet configuration (src/clients/faucet_client.py,
FaucetClient.__init__); only the fields the admission core reads. -/
structure FaucetClient where
  node_chain_id : String
  amount_to_send : Int
  amount_to_send_evm : Int
  daily_cap : Int
  daily_cap_evm : Int
  token_requests_cap : Nat
  ibc_token_requests_cap : Nat
  request_timeout : Nat
deriving DecidableEq

/-- FaucetClient.get_amount_to_send -/
def FaucetClient.get_amount_to_send (c : FaucetClient) (network_id : String) : Int :=
  if is_evm_network network_id then c.amount_to_send_evm else c.amount_to_send

/-- FaucetClient.get_daily_cap -/
def FaucetClient.get_daily_cap (c : FaucetClient) (network_id : String) : Int :=
  if is_evm_network network_id then c.daily_cap_evm else c.daily_cap

/-- FaucetClient.get_token_requests_cap -/
def FaucetClient.get_token_requests_cap (c : FaucetClient) (network_id : String) : Nat :=
  if network_id = c.node_chain_id then c.token_requests_cap else c.ibc_token_requests_cap

/-- A key of the per-network ACTIVE_REQUESTS dict.  check_time_limits inserts
entries under the requester id (an int, from message.author.id) and under the
destination address (a string); the exception handler of
process_transactions_queue deletes under the message.author object itself.
A discord Member object never compares equal to its integer id as a Python
dict key, so the three kinds are pairwise distinct constructors. -/
inductive RKey
  | user (id : Nat)
  | member (id : Nat)
  | addr (a : String)
deriving DecidableEq

/-- A value of the per-network ACTIVE_REQUESTS dict (check_time_limits). -/
structure RateLimitEntry where
  check_time : Nat
  requests_count : Nat
deriving DecidableEq

/-- The per-network ACTIVE_REQUESTS dict, as an association list. -/
abbrev Ledger := List (RKey × RateLimitEntry)

def dictLookup : Ledger → RKey → Option RateLimitEntry
  | [], _ => none
  | (k, v) :: rest, k' => if k = k' then some v else dictLookup rest k'

/-- Python dict assignment: update in place when the key exists, append otherwise. -/
def dictInsert : Ledger → RKey → RateLimitEntry → Ledger
  | [], k, v => [(k, v)]
  | (k0, v0) :: rest, k, v =>
    if k0 = k then (k0, v) :: rest else (k0, v0) :: dictInsert rest k v

/-- Python del on a key known to be present (total remove-if-present). -/
def dictErase : Ledger → RKey → Ledger
  | [], _ => []
  | (k0, v0) :: rest, k =>
    if k0 = k then rest else (k0, v0) :: dictErase rest k

/-- The NETWORKS_DAY_TALLY value for one network (check_daily_cap). -/
structure DayTally where
  active_day : Nat
  day_tally : Int
deriving DecidableEq

/-- The network_denom record resolved in token_request. -/
structure NetworkDenom where
  denom : String
  baseDenom : String
deriving DecidableEq

/-- User-facing replies sent by the bot, abstracted from their full text.
timeBlocked carries the values the source computes at lines 223-237 of
src/cosmos_discord_faucet.py: the raw seconds_left together with the
formatted wait_time, how_many and timeout_in_hours pieces of the reply. -/
inductive Reply
  | timeBlocked (network_id how_many : String) (timeout_in_hours : Nat)
      (wait_time : String) (seconds_left : Nat)
  | drained (base_denom : String)
  | capReached
  | noTokenBalance (network_id : String)
  | accepted
  | approvedTx (tx : String)
  | genericError
  | missingHash
  | badHashLength (received : Nat)
  | txInfo (text : String)
deriving DecidableEq

/-- Lines 231-235: once / twice / N times. -/
def format_how_many (cap : Nat) : String :=
  if cap = 2 then "twice" else if cap > 2 then toString cap ++ " times" else "once"

/-- Lines 223-228: minutes_left = seconds_left / 60; above 120 minutes the
wait is reported in whole hours, otherwise in whole minutes (int truncation
of a nonnegative float division equals natural division here). -/
def format_wait_time (seconds_left : Nat) : String :=
  if seconds_left > 7200 then toString (seconds_left / 3600) ++ " hours"
  else toString (seconds_left / 60) ++ " minutes"

/-- on_time_blocked (src/cosmos_discord_faucet.py lines 211-245).
message_timestamp is passed explicitly in place of time.time(). -/
def on_time_blocked (client : FaucetClient) (network_id : String) (requester : RKey)
    (message_timestamp : Nat) (ledger : Ledger) : Bool × Option Reply × Ledger :=
  match dictLookup ledger requester with
  | none => (true, none, ledger)
  | some request =>
    let check_time := request.check_time
    let requests_count := request.requests_count
    let token_requests_cap := client.get_token_requests_cap network_id
    if check_time > message_timestamp ∧ requests_count ≥ token_requests_cap then
      let seconds_left := check_time - message_timestamp
      (false,
       some (Reply.timeBlocked network_id (format_how_many token_requests_cap)
          (client.request_timeout / 3600) (format_wait_time seconds_left) seconds_left),
       ledger)
    else if check_time > message_timestamp then
      (true, none, dictInsert ledger requester
        { request with requests_count := requests_count + 1 })
    else
      (true, none, dictErase ledger requester)

/-- check_time_limits (lines 248-269).  The requester gate runs first; its
mutations persist even when the address gate then rejects.  Fresh entries for
both principals are created only when neither still has an entry. -/
def check_time_limits (client : FaucetClient) (network_id : String) (requester_id : Nat)
    (address : String) (message_timestamp : Nat) (ledger : Ledger) :
    Bool × Option Reply × Ledger :=
  match on_time_blocked client network_id (RKey.user requester_id) message_timestamp ledger with
  | (false, reply, l1) => (false, reply, l1)
  | (true, _, l1) =>
    match on_time_blocked client network_id (RKey.addr address) message_timestamp l1 with
    | (false, reply2, l2) => (false, reply2, l2)
    | (true, _, l2) =>
      if (dictLookup l2 (RKey.user requester_id)).isNone
          ∧ (dictLookup l2 (RKey.addr address)).isNone then
        let entry : RateLimitEntry :=
          { check_time := message_timestamp + client.request_timeout, requests_count := 1 }
        (true, none,
         dictInsert (dictInsert l2 (RKey.user requester_id) entry) (RKey.addr address) entry)
      else (true, none, l2)

/-- check_daily_cap (lines 272-291); today stands for
datetime.datetime.today().date(). -/
def check_daily_cap (client : FaucetClient) (network_id : String) (today : Nat)
    (tally : Option DayTally) : Bool × Option DayTally :=
  let delta := client.get_amount_to_send network_id
  match tally with
  | none => (true, some { active_day := today, day_tally := delta })
  | some t =>
    if today ≠ t.active_day then (true, some { active_day := today, day_tally := delta })
    else if t.day_tally + delta > client.get_daily_cap network_id then (false, some t)
    else (true, some { active_day := t.active_day, day_tally := t.day_tally + delta })

/-- revert_daily_consume (lines 294-298). -/
def revert_daily_consume (client : FaucetClient) (network_id : String)
    (tally : Option DayTally) : Option DayTally :=
  match tally with
  | none => none
  | some t =>
    some { active_day := t.active_day,
           day_tally := t.day_tally - client.get_amount_to_send network_id }

/-- transaction_info (lines 185-208).  query_result is the outcome of
client.get_tx_info, abstracted to its formatted text or a raised exception;
the returned Bool records whether that chain query was issued at all. -/
def transaction_info (transaction_hash : String) (query_result : Except Unit String) :
    Reply × Bool :=
  if transaction_hash = "" then (Reply.missingHash, false)
  else if transaction_hash.length ≠ 64 then
    (Reply.badHashLength transaction_hash.length, false)
  else
    match query_result with
    | Except.ok info => (Reply.txInfo info, true)
    | Except.error _ => (Reply.genericError, true)

/-- Outcome of one submission attempt inside CosmosClient.tx_send
(src/clients/cosmos_client.py lines 110-134): callError is a
CalledProcessError raised by execute (not caught by the retry loop);
badResponse is a TypeError or KeyError raised while reading the code field
(caught and retried); response carries the code field and, when present, the
txhash field (a missing txhash raises KeyError, caught and retried). -/
inductive AttemptOutcome
  | callError
  | badResponse
  | response (code : Int) (txhash : Option String)
deriving DecidableEq

inductive SendError
  | processError
  | sendFailed
deriving DecidableEq

/-- An attempt outcome that falls through to the next loop iteration. -/
def retriable : AttemptOutcome → Bool
  | AttemptOutcome.callError => false
  | AttemptOutcome.badResponse => true
  | AttemptOutcome.response code txhash => !(code = 0 && txhash.isSome)

/-- The retry loop of tx_send: i is the next attempt index, the second
argument the remaining iterations of range(5). -/
def tx_send_from (attempts : Nat → AttemptOutcome) (i : Nat) :
    Nat → Except SendError String
  | 0 => Except.error SendError.sendFailed
  | n + 1 =>
    match attempts i with
    | AttemptOutcome.callError => Except.error SendError.processError
    | AttemptOutcome.badResponse => tx_send_from attempts (i + 1) n
    | AttemptOutcome.response code txhash =>
      if code = 0 then
        match txhash with
        | some h => Except.ok h
        | none => tx_send_from attempts (i + 1) n
      else tx_send_from attempts (i + 1) n

/-- CosmosClient.tx_send (lines 110-134): up to five attempts, each drawn
from the oracle of attempt outcomes. -/
def tx_send (attempts : Nat → AttemptOutcome) : Except SendError String :=
  tx_send_from attempts 0 5

/-- One item of TRANSACTIONS_QUEUE (token_request lines 344-349).  author is
the Discord message author; check_time_limits receives its id while the
exception handler uses the object itself as a dict key. -/
structure QueuedRequest where
  author : Nat
  address : String
  network_id : String
  network_denom : NetworkDenom
deriving DecidableEq

/-- Whether the worker loop proceeds to the next queued item or the
process_transactions_queue coroutine returns. -/
inductive Control
  | next
  | stop
deriving DecidableEq

/-- The I/O outcomes one dequeued item observes inside
process_transactions_queue: the core-team role lookup (lines 367-368), the
faucet balance query (line 380, none when the response is falsy), and the
transfer submission (line 390).  An error value models a raised exception. -/
structure DispatchEnv where
  role_check : Except Unit Bool
  now : Nat
  balance : Except Unit (Option Int)
  transfer : Except Unit String

/-- The inner exception handler of process_transactions_queue (lines
407-413).  For a non-core-team request it first deletes the ledger entry
keyed by the author object; entries, however, were created under the
author id, so that del raises KeyError, the outer handler (lines 415-416)
swallows it, and neither the address entry deletion, nor the tally revert,
nor the generic reply is reached. -/
def exception_handler (client : FaucetClient) (network_id : String) (author : Nat)
    (address : String) (is_core_team : Bool) (ledger : Ledger) (tally : Option DayTally) :
    Ledger × Option DayTally × List Reply :=
  if is_core_team then (ledger, tally, [Reply.genericError])
  else if (dictLookup ledger (RKey.member author)).isNone then (ledger, tally, [])
  else
    let l1 := dictErase ledger (RKey.member author)
    if (dictLookup l1 (RKey.addr address)).isNone then (l1, tally, [])
    else
      (dictErase l1 (RKey.addr address),
       revert_daily_consume client network_id tally, [Reply.genericError])

/-- The body of the while-loop of process_transactions_queue (lines 356-419)
for one dequeued item.  Returns the updated ledger and tally, the replies
sent for this item, and whether control falls through to the next iteration
or the coroutine returns (the rejected and drained branches end in return
statements at lines 378 and 386). -/
def process_one (client : FaucetClient) (env : DispatchEnv) (req : QueuedRequest)
    (ledger : Ledger) (tally : Option DayTally) :
    Ledger × Option DayTally × List Reply × Control :=
  match env.role_check with
  | Except.error _ =>
    match exception_handler client req.network_id req.author req.address false ledger tally with
    | (l, t, rs) => (l, t, rs, Control.next)
  | Except.ok is_core_team =>
    match
      (if is_core_team then (true, none, ledger)
       else check_time_limits client req.network_id req.author req.address env.now ledger :
        Bool × Option Reply × Ledger) with
    | (false, reply, l1) =>
      (l1, revert_daily_consume client req.network_id tally, reply.toList, Control.stop)
    | (true, _, l1) =>
      match env.balance with
      | Except.error _ =>
        match exception_handler client req.network_id req.author req.address
            is_core_team l1 tally with
        | (l, t, rs) => (l, t, rs, Control.next)
      | Except.ok balance =>
        if balance = none ∨ balance.getD 0 < client.get_amount_to_send req.network_id then
          (l1, revert_daily_consume client req.network_id tally,
           [Reply.drained req.network_denom.baseDenom], Control.stop)
        else
          match env.transfer with
          | Except.error _ =>
            match exception_handler client req.network_id req.author req.address
                is_core_team l1 tally with
            | (l, t, rs) => (l, t, rs, Control.next)
          | Except.ok tx => (l1, tally, [Reply.approvedTx tx], Control.next)

/-- The worker loop of process_transactions_queue over a FIFO list of queued
items paired with the I/O outcomes each observes.  Returns the final ledger
and tally, the replies of the processed items in order, and the items left
unprocessed because the coroutine returned. -/
def run_worker (client : FaucetClient) :
    List (DispatchEnv × QueuedRequest) → Ledger → Option DayTally →
    Ledger × Option DayTally × List (List Reply) × List QueuedRequest
  | [], l, t => (l, t, [], [])
  | (env, req) :: rest, l, t =>
    match process_one client env req l t with
    | (l1, t1, rs, Control.stop) => (l1, t1, [rs], rest.map Prod.snd)
    | (l1, t1, rs, Control.next) =>
      match run_worker client rest l1 t1 with
      | (l2, t2, rss, rem) => (l2, t2, rs :: rss, rem)

/-- token_request (lines 301-351) from the network-id defaulting onward;
address validation happens upstream.  network_denom is the outcome of the
denom resolution (none for a falsy response).  Returns the updated tally,
the replies sent, and the queued request when one was enqueued.  The denom
check precedes the daily-cap check, which precedes enqueueing. -/
def token_request (client : FaucetClient) (author : Nat) (address : String)
    (network_id_param : String) (network_denom : Option NetworkDenom) (today : Nat)
    (tally : Option DayTally) : Option DayTally × List Reply × Option QueuedRequest :=
  let network_id := if network_id_param = "" then client.node_chain_id else network_id_param
  match network_denom with
  | none => (tally, [Reply.noTokenBalance network_id], none)
  | some nd =>
    match check_daily_cap client network_id today tally with
    | (true, tally1) =>
      (tally1, [Reply.accepted],
       some { author := author, address := address, network_id := network_id,
              network_denom := nd })
    | (false, _) => (tally, [Reply.capReached], none)

/-- One request end to end: token_request reserves the daily cap and
enqueues; the dispatch worker then consults the rate-limit gate and performs
the transfer.  Returns the final ledger and tally, all replies in order, and
whether the request was enqueued at all. -/
def request_pipeline (client : FaucetClient) (env : DispatchEnv) (author : Nat)
    (address : String) (network_id_param : String) (network_denom : Option NetworkDenom)
    (today : Nat) (ledger : Ledger) (tally : Option DayTally) :
    Ledger × Option DayTally × List Reply × Bool :=
  match token_request client author address network_id_param network_denom today tally with
  | (tally1, replies, none) => (ledger, tally1, replies, false)
  | (tally1, replies, some req) =>
    match process_one client env req ledger tally1 with
    | (l1, t1, rs, _) => (l1, t1, replies ++ rs, true)

example : is_evm_network "rollappevm_1234-1" = true := by decide
example : is_evm_network "chain-1" = false := by decide

/-! Concrete fixtures used by the closed evaluations below. -/

/-- A concrete non-evm configuration: 300 tokens per request, daily cap 1000,
two requests per 6-hour window on the native chain. -/
def clientA : FaucetClient :=
  { node_chain_id := "chain-1", amount_to_send := 300, amount_to_send_evm := 7,
    daily_cap := 1000, daily_cap_evm := 50, token_requests_cap := 2,
    ibc_token_requests_cap := 1, request_timeout := 21600 }

def ndA : NetworkDenom := { denom := "adym", baseDenom := "DYM" }

def reqA : QueuedRequest :=
  { author := 7, address := "dym1abc", network_id := "chain-1", network_denom := ndA }

def reqB : QueuedRequest :=
  { author := 8, address := "dym1xyz", network_id := "chain-1", network_denom := ndA }

/-- Regular user, ample faucet balance, transfer submission raises. -/
def envTxFail : DispatchEnv :=
  { role_check := Except.ok false, now := 10, balance := Except.ok (some 1000000),
    transfer := Except.error () }

/-- Regular user, balance query returns a falsy response (drained). -/
def envDrained : DispatchEnv :=
  { role_check := Except.ok false, now := 10, balance := Except.ok none,
    transfer := Except.ok "CAFE" }

/-- Regular user, ample balance, transfer succeeds. -/
def envPlain : DispatchEnv :=
  { role_check := Except.ok false, now := 10, balance := Except.ok (some 1000000),
    transfer := Except.ok "CAFE" }

/-! Helper lemmas about the dict model. -/

theorem dictLookup_insert_self (l : Ledger) (k : RKey) (v : RateLimitEntry) :
    dictLookup (dictInsert l k v) k = some v := by
  induction l with
  | nil => simp [dictInsert, dictLookup]
  | cons p rest ih =>
    obtain ⟨k0, v0⟩ := p
    by_cases hk : k0 = k
    · simp [dictInsert, hk, dictLookup]
    · simp [dictInsert, hk, dictLookup, ih]

theorem dictLookup_insert_other (l : Ledger) (k k' : RKey) (v : RateLimitEntry)
    (h : k ≠ k') : dictLookup (dictInsert l k v) k' = dictLookup l k' := by
  induction l with
  | nil => simp [dictInsert, dictLookup, h]
  | cons p rest ih =>
    obtain ⟨k0, v0⟩ := p
    by_cases hk : k0 = k
    · subst hk
      simp [dictInsert, dictLookup, h]
    · simp [dictInsert, hk, dictLookup, ih]

/-! Claims. -/

/-- Claim C5: once a principal P holds a ledger entry admitted at time T
(expiring at T + request_timeout) with count c, an attempt strictly before
expiry is rejected with seconds_left = expiry - now once c has reached the
per-identifier cap, and is admitted with the count incremented while below
the cap; an attempt at or after expiry deletes the entry and is admitted as
fresh. -/
theorem on_time_blocked_window (client : FaucetClient) (network_id : String) (P : RKey)
    (T ts c : Nat) (ledger : Ledger)
    (h : dictLookup ledger P
        = some { check_time := T + client.request_timeout, requests_count := c }) :
    on_time_blocked client network_id P ts ledger =
      if ts < T + client.request_timeout then
        if client.get_token_requests_cap network_id ≤ c then
          (false,
           some (Reply.timeBlocked network_id
              (format_how_many (client.get_token_requests_cap network_id))
              (client.request_timeout / 3600)
              (format_wait_time (T + client.request_timeout - ts))
              (T + client.request_timeout - ts)),
           ledger)
        else
          (true, none, dictInsert ledger P
            { check_time := T + client.request_timeout, requests_count := c + 1 })
      else (true, none, dictErase ledger P) := by
  simp only [on_time_blocked, h]
  split_ifs with h1 h2 h3 h4 <;> first | rfl | omega

/-- Witness for C5: cap 2 reached, attempt at second 1 of a window expiring
at 21600 is rejected with 21599 seconds left, reported as 5 whole hours. -/
theorem on_time_blocked_window_witness :
    on_time_blocked clientA "chain-1" (RKey.user 7) 1 [(RKey.user 7, ⟨21600, 2⟩)] =
      (false, some (Reply.timeBlocked "chain-1" "twice" 6 "5 hours" 21599),
       [(RKey.user 7, ⟨21600, 2⟩)]) := by
  rw [on_time_blocked_window clientA "chain-1" (RKey.user 7) 0 1 2
      [(RKey.user 7, ⟨21600, 2⟩)] rfl]
  rfl

/-- The DailyCapTracker try_reserve contract, modelled from the spec's words
(spec section 4.2): on a missing tally or a date change, reset to the new
day with day_tally = amount and succeed; otherwise fail without mutation
when day_tally + amount exceeds daily_cap, else accumulate and succeed. -/
def spec_try_reserve (daily_cap amount : Int) (now_date : Nat) (tally : Option DayTally) :
    Bool × Option DayTally :=
  match tally with
  | none => (true, some { active_day := now_date, day_tally := amount })
  | some t =>
    if now_date ≠ t.active_day then
      (true, some { active_day := now_date, day_tally := amount })
    else if t.day_tally + amount > daily_cap then (false, some t)
    else (true, some { active_day := t.active_day, day_tally := t.day_tally + amount })

/-- Claim C6: check_daily_cap behaves exactly as the spec's try_reserve with
the network's daily cap and amount-to-send: fresh or rolled-over day resets
to the new amount (discarding yesterday) and succeeds; an over-cap addition
fails without mutation; otherwise the tally accumulates and succeeds. -/
theorem check_daily_cap_matches_spec (client : FaucetClient) (network_id : String)
    (today : Nat) (tally : Option DayTally) :
    check_daily_cap client network_id today tally
      = spec_try_reserve (client.get_daily_cap network_id)
          (client.get_amount_to_send network_id) today tally := by
  cases tally with
  | none => rfl
  | some t => rfl

/-- Counterexample for C7: reserving on a new calendar day (tally held day 5
at 500, reservation on day 6) succeeds, and the immediate rollback leaves
day_tally at 0, not at its pre-reservation value 500. -/
theorem reserve_rollback_rollover_counterexample :
    (check_daily_cap clientA "chain-1" 6 (some ⟨5, 500⟩)).1 = true ∧
    revert_daily_consume clientA "chain-1"
        (check_daily_cap clientA "chain-1" 6 (some ⟨5, 500⟩)).2 = some ⟨6, 0⟩ ∧
    ((0 : Int) ≠ 500) := by decide

/-- Claim C7 (amended): when the existing tally is already on the current
date, a successful reservation followed immediately by a rollback of the
same amount restores day_tally exactly. -/
theorem reserve_rollback_same_day_inverse (client : FaucetClient) (network_id : String)
    (today : Nat) (v : Int)
    (h : (check_daily_cap client network_id today (some ⟨today, v⟩)).1 = true) :
    revert_daily_consume client network_id
        (check_daily_cap client network_id today (some ⟨today, v⟩)).2
      = some ⟨today, v⟩ := by
  by_cases hc : v + client.get_amount_to_send network_id > client.get_daily_cap network_id
  · exfalso
    simp [check_daily_cap, hc] at h
  · simp [check_daily_cap, hc, revert_daily_consume]

/-- Witness for the amended C7 at a same-day tally of 100. -/
theorem reserve_rollback_same_day_inverse_witness :
    revert_daily_consume clientA "chain-1"
        (check_daily_cap clientA "chain-1" 6 (some ⟨6, 100⟩)).2 = some ⟨6, 100⟩ :=
  reserve_rollback_same_day_inverse clientA "chain-1" 6 100 (by decide)

/-- Claim C9: a transaction-info query whose hash length is not 64 is
answered with a rejection reply (missing hash, or the length complaint) and
no chain query is ever issued for it. -/
theorem tx_hash_length_gate (transaction_hash : String) (query_result : Except Unit String)
    (h : transaction_hash.length ≠ 64) :
    (transaction_info transaction_hash query_result).2 = false ∧
    ((transaction_info transaction_hash query_result).1 = Reply.missingHash ∨
     (transaction_info transaction_hash query_result).1
        = Reply.badHashLength transaction_hash.length) := by
  unfold transaction_info
  by_cases he : transaction_hash = ""
  · rw [if_pos he]
    exact ⟨rfl, Or.inl rfl⟩
  · rw [if_neg he, if_pos h]
    exact ⟨rfl, Or.inr rfl⟩

/-- Witness for C9 at the 3-character hash abc. -/
theorem tx_hash_length_gate_witness :
    (transaction_info "abc" (Except.error ())).2 = false ∧
    ((transaction_info "abc" (Except.error ())).1 = Reply.missingHash ∨
     (transaction_info "abc" (Except.error ())).1 = Reply.badHashLength 3) :=
  tx_hash_length_gate "abc" (Except.error ()) (by decide)

/-- Counterexample for C8: with cap 2, requester 7 still holds a live
under-cap entry from a previous admission and now requests the fresh address
a2; the gate admits, increments the requester's count, but creates no ledger
entry for a2, so a later request involving a2 is not blocked by it. -/
theorem admitted_without_second_entry :
    (check_time_limits clientA "chain-1" 7 "a2" 50
        [(RKey.user 7, ⟨1000, 1⟩), (RKey.addr "a1", ⟨1000, 1⟩)]).1 = true ∧
    dictLookup (check_time_limits clientA "chain-1" 7 "a2" 50
        [(RKey.user 7, ⟨1000, 1⟩), (RKey.addr "a1", ⟨1000, 1⟩)]).2.2 (RKey.addr "a2")
      = none := by decide

/-- Claim C8 (amended): when neither the requester nor the address holds a
prior ledger entry, an admitted request leaves two fresh entries — one per
principal — each expiring at now + request_timeout with count 1. -/
theorem fresh_admission_creates_both_entries (client : FaucetClient) (network_id : String)
    (requester_id : Nat) (address : String) (ts : Nat) (ledger : Ledger)
    (hr : dictLookup ledger (RKey.user requester_id) = none)
    (ha : dictLookup ledger (RKey.addr address) = none) :
    (check_time_limits client network_id requester_id address ts ledger).1 = true ∧
    dictLookup (check_time_limits client network_id requester_id address ts ledger).2.2
        (RKey.user requester_id)
      = some { check_time := ts + client.request_timeout, requests_count := 1 } ∧
    dictLookup (check_time_limits client network_id requester_id address ts ledger).2.2
        (RKey.addr address)
      = some { check_time := ts + client.request_timeout, requests_count := 1 } := by
  have hne : RKey.user requester_id ≠ RKey.addr address := by simp
  have hne' : RKey.addr address ≠ RKey.user requester_id := by simp
  simp only [check_time_limits, on_time_blocked, hr, ha, Option.isNone_none, and_self,
    if_pos, if_true]
  refine ⟨trivial, ?_, ?_⟩
  · rw [dictLookup_insert_other _ _ _ _ hne', dictLookup_insert_self]
  · rw [dictLookup_insert_self]

/-- Witness for the amended C8 on an empty ledger. -/
theorem fresh_admission_creates_both_entries_witness :
    (check_time_limits clientA "chain-1" 7 "dym1abc" 10 []).1 = true ∧
    dictLookup (check_time_limits clientA "chain-1" 7 "dym1abc" 10 []).2.2 (RKey.user 7)
      = some { check_time := 21610, requests_count := 1 } ∧
    dictLookup (check_time_limits clientA "chain-1" 7 "dym1abc" 10 []).2.2
        (RKey.addr "dym1abc")
      = some { check_time := 21610, requests_count := 1 } :=
  fresh_admission_creates_both_entries clientA "chain-1" 7 "dym1abc" 10 [] rfl rfl

/-- Counterexample for C2: the balance check finds the faucet drained; the
worker rolls back the cap reservation and replies drained, but the two
rate-limit entries created for this very request remain in the ledger, and
control is stop — the coroutine returns instead of continuing to the next
queued item. -/
theorem drained_keeps_entries_and_stops :
    (process_one clientA envDrained reqA [] (some ⟨6, 300⟩)).1
      = [(RKey.user 7, ⟨21610, 1⟩), (RKey.addr "dym1abc", ⟨21610, 1⟩)] ∧
    (process_one clientA envDrained reqA [] (some ⟨6, 300⟩)).2.1 = some ⟨6, 0⟩ ∧
    (process_one clientA envDrained reqA [] (some ⟨6, 300⟩)).2.2.1
      = [Reply.drained "DYM"] ∧
    (process_one clientA envDrained reqA [] (some ⟨6, 300⟩)).2.2.2 = Control.stop := by
  decide

/-- Claim C2 (amended): on an insufficient-balance check for a non-bypass
admitted request, the worker rolls back only the daily-cap reservation
(the rate-limit entries remain as the gate left them), replies drained, and
then returns from the coroutine — terminating the worker loop — rather than
continuing to the next queued item. -/
theorem drained_branch_behavior (client : FaucetClient) (env : DispatchEnv)
    (req : QueuedRequest) (ledger : Ledger) (tally : Option DayTally) (b : Option Int)
    (hrole : env.role_check = Except.ok false)
    (hbal : env.balance = Except.ok b)
    (hgate : (check_time_limits client req.network_id req.author req.address
        env.now ledger).1 = true)
    (hins : b = none ∨ b.getD 0 < client.get_amount_to_send req.network_id) :
    process_one client env req ledger tally =
      ((check_time_limits client req.network_id req.author req.address env.now ledger).2.2,
       revert_daily_consume client req.network_id tally,
       [Reply.drained req.network_denom.baseDenom], Control.stop) := by
  rcases hct : check_time_limits client req.network_id req.author req.address
      env.now ledger with ⟨approved, reply, l1⟩
  rw [hct] at hgate
  simp only at hgate
  subst hgate
  simp only [process_one, hrole, Bool.false_eq_true, if_false, hct, hbal, hct, if_pos hins]

/-- Witness for the amended C2: fresh ledger, reservation of 300 on the
tally, balance query falsy — the gate's entries survive, the tally drops
back to 0, the reply is drained, and the worker returns. -/
theorem drained_branch_behavior_witness :
    process_one clientA envDrained reqA [] (some ⟨6, 300⟩) =
      ((check_time_limits clientA "chain-1" 7 "dym1abc" 10 []).2.2,
       revert_daily_consume clientA "chain-1" (some ⟨6, 300⟩),
       [Reply.drained "DYM"], Control.stop) :=
  drained_branch_behavior clientA envDrained reqA [] (some ⟨6, 300⟩) none rfl rfl
    (by decide) (Or.inl rfl)

/-- Counterexample for C4: the tally held day 5 at 500; a request on day 6
reserves (resetting to 300), the rate-limit gate rejects it (requester 7 is
at cap), and the rollback leaves day_tally at 0 — not at its value before
the reservation — so a rate-limit-rejected request does not leave day_tally
unchanged net of its own rollback. -/
theorem rate_reject_rollover_tally_changed :
    (request_pipeline clientA envPlain 7 "dym1abc" "chain-1" (some ndA) 6
        [(RKey.user 7, ⟨1000, 2⟩)] (some ⟨5, 500⟩)).2.2.1
      = [Reply.accepted, Reply.timeBlocked "chain-1" "twice" 6 "16 minutes" 990] ∧
    (request_pipeline clientA envPlain 7 "dym1abc" "chain-1" (some ndA) 6
        [(RKey.user 7, ⟨1000, 2⟩)] (some ⟨5, 500⟩)).2.1 = some ⟨6, 0⟩ ∧
    ((0 : Int) ≠ 500) := by decide

/-- Claim C4 (amended): the daily-cap reservation is made before the
rate-limit gate is consulted — when the cap check rejects, the pipeline
returns without ever touching the ledger — and when the gate rejects a
request whose tally was already on the current day, the rollback restores
day_tally to exactly its pre-reservation value. -/
theorem cap_gate_order_and_same_day_rollback (client : FaucetClient) (env : DispatchEnv)
    (author : Nat) (address network_id : String) (nd : NetworkDenom) (today : Nat)
    (ledger : Ledger) (hnid : network_id ≠ "") :
    (∀ tally, (check_daily_cap client network_id today tally).1 = false →
       request_pipeline client env author address network_id (some nd) today ledger tally
         = (ledger, tally, [Reply.capReached], false)) ∧
    (∀ v : Int,
       (check_daily_cap client network_id today (some ⟨today, v⟩)).1 = true →
       env.role_check = Except.ok false →
       (check_time_limits client network_id author address env.now ledger).1 = false →
       (request_pipeline client env author address network_id (some nd) today ledger
           (some ⟨today, v⟩)).2.1 = some ⟨today, v⟩) := by
  constructor
  · intro tally hfail
    rcases hcd : check_daily_cap client network_id today tally with ⟨ok, t1⟩
    rw [hcd] at hfail
    simp only at hfail
    subst hfail
    simp only [request_pipeline, token_request, if_neg hnid, hcd]
  · intro v hres hrole hreject
    have hcap : ¬ v + client.get_amount_to_send network_id
        > client.get_daily_cap network_id := by
      intro hc
      simp [check_daily_cap, hc] at hres
    have hcd : check_daily_cap client network_id today (some ⟨today, v⟩)
        = (true, some ⟨today, v + client.get_amount_to_send network_id⟩) := by
      simp [check_daily_cap, hcap]
    rcases hct : check_time_limits client network_id author address env.now ledger
      with ⟨approved, reply, l1⟩
    rw [hct] at hreject
    simp only at hreject
    subst hreject
    simp only [request_pipeline, token_request, if_neg hnid, hcd, process_one, hrole,
      Bool.false_eq_true, if_false, hct, revert_daily_consume]
    simp [add_sub_cancel_right]

/-- Witness for the amended C4: cap rejection leaves the pipeline untouched
at an over-cap tally, and a same-day reservation of 300 on a tally of 600 is
restored to 600 when requester 7 is rate-limit-rejected. -/
theorem cap_gate_order_and_same_day_rollback_witness :
    request_pipeline clientA envPlain 7 "dym1abc" "chain-1" (some ndA) 6
        [(RKey.user 7, ⟨1000, 2⟩)] (some ⟨6, 900⟩)
      = ([(RKey.user 7, ⟨1000, 2⟩)], some ⟨6, 900⟩, [Reply.capReached], false) ∧
    (request_pipeline clientA envPlain 7 "dym1abc" "chain-1" (some ndA) 6
        [(RKey.user 7, ⟨1000, 2⟩)] (some ⟨6, 600⟩)).2.1 = some ⟨6, 600⟩ := by
  constructor
  · exact (cap_gate_order_and_same_day_rollback clientA envPlain 7 "dym1abc" "chain-1"
      ndA 6 [(RKey.user 7, ⟨1000, 2⟩)] (by decide)).1 (some ⟨6, 900⟩) (by decide)
  · exact (cap_gate_order_and_same_day_rollback clientA envPlain 7 "dym1abc" "chain-1"
      ndA 6 [(RKey.user 7, ⟨1000, 2⟩)] (by decide)).2 600 (by decide) rfl (by decide)

/-- Claim C1 (code evaluation at the failing input): a non-core-team request
is admitted (entries created for requester id 7 and the address), the cap
reservation stands at 300, the balance is ample, and the transfer raises.
The handler then deletes ACTIVE_REQUESTS under the author object while the
entries are keyed by the author id, so the del raises KeyError, the outer
handler swallows it, and the request ends with both ledger entries still
present, the tally still reserved, and no generic failure reply sent. -/
theorem exception_rollback_unreachable :
    request_pipeline clientA envTxFail 7 "dym1abc" "chain-1" (some ndA) 6 [] (some ⟨6, 0⟩)
      = ([(RKey.user 7, ⟨21610, 1⟩), (RKey.addr "dym1abc", ⟨21610, 1⟩)],
         some ⟨6, 300⟩, [Reply.accepted], true) := by decide

/-- Claim C3 (code evaluation at the failing input): a two-item queue whose
first item is rate-limit-rejected; the worker replies to the first item and
then returns — the return statement ends the coroutine — leaving the second
item undispatched, so a single item's failure does terminate the worker
loop. -/
theorem worker_returns_after_rejection :
    (run_worker clientA [(envPlain, reqA), (envPlain, reqB)]
        [(RKey.user 7, ⟨1000, 2⟩)] (some ⟨6, 300⟩)).2.2.1
      = [[Reply.timeBlocked "chain-1" "twice" 6 "16 minutes" 990]] ∧
    (run_worker clientA [(envPlain, reqA), (envPlain, reqB)]
        [(RKey.user 7, ⟨1000, 2⟩)] (some ⟨6, 300⟩)).2.2.2 = [reqB] := by decide

/-- Shifting a fall-through attempt: when attempt i merely falls through,
the success positions within the remaining budget shift by one. -/
theorem fallthrough_step (attempts : Nat → AttemptOutcome) (h : String) (n i : Nat)
    (hr : retriable (attempts i) = true) :
    (∃ j, j < n ∧ attempts (i + 1 + j) = AttemptOutcome.response 0 (some h) ∧
        ∀ k, k < j → retriable (attempts (i + 1 + k)) = true) ↔
    (∃ j, j < n + 1 ∧ attempts (i + j) = AttemptOutcome.response 0 (some h) ∧
        ∀ k, k < j → retriable (attempts (i + k)) = true) := by
  constructor
  · rintro ⟨j, hj, hresp, hall⟩
    refine ⟨j + 1, by omega, ?_, ?_⟩
    · have e : i + (j + 1) = i + 1 + j := by omega
      rw [e]
      exact hresp
    · intro k hk
      cases k with
      | zero => simpa using hr
      | succ k' =>
        have e : i + (k' + 1) = i + 1 + k' := by omega
        rw [e]
        exact hall k' (by omega)
  · rintro ⟨j, hj, hresp, hall⟩
    cases j with
    | zero =>
      rw [Nat.add_zero] at hresp
      rw [hresp] at hr
      simp [retriable] at hr
    | succ j' =>
      refine ⟨j', by omega, ?_, ?_⟩
      · have e : i + 1 + j' = i + (j' + 1) := by omega
        rw [e]
        exact hresp
      · intro k hk
        have e : i + 1 + k = i + (k + 1) := by omega
        rw [e]
        exact hall (k + 1) (by omega)

/-- The retry loop returns a hash exactly when some attempt within the
budget is a readable code-0 response and every earlier attempt fell through
(unreadable response, non-zero code, or readable code 0 missing its hash). -/
theorem tx_send_from_ok_iff (attempts : Nat → AttemptOutcome) (h : String) :
    ∀ n i, tx_send_from attempts i n = Except.ok h ↔
      ∃ j, j < n ∧ attempts (i + j) = AttemptOutcome.response 0 (some h) ∧
        ∀ k, k < j → retriable (attempts (i + k)) = true := by
  intro n
  induction n with
  | zero =>
    intro i
    constructor
    · intro hok
      simp [tx_send_from] at hok
    · rintro ⟨j, hj, -, -⟩
      omega
  | succ n ih =>
    intro i
    cases ha : attempts i with
    | callError =>
      simp only [tx_send_from, ha]
      constructor
      · intro hok
        cases hok
      · rintro ⟨j, hj, hresp, hall⟩
        exfalso
        cases j with
        | zero =>
          rw [Nat.add_zero, ha] at hresp
          cases hresp
        | succ j' =>
          have := hall 0 (by omega)
          rw [Nat.add_zero, ha] at this
          simp [retriable] at this
    | badResponse =>
      simp only [tx_send_from, ha]
      rw [ih (i + 1)]
      exact fallthrough_step attempts h n i (by rw [ha]; rfl)
    | response code txhash =>
      by_cases hc : code = 0
      · subst hc
        cases txhash with
        | some h0 =>
          have hred : tx_send_from attempts i (n + 1) = Except.ok h0 := by
            simp [tx_send_from, ha]
          rw [hred]
          constructor
          · intro hok
            injection hok with hh
            subst hh
            refine ⟨0, by omega, ?_, ?_⟩
            · rw [Nat.add_zero, ha]
            · intro k hk
              omega
          · rintro ⟨j, hj, hresp, hall⟩
            cases j with
            | zero =>
              rw [Nat.add_zero, ha] at hresp
              injection hresp with h1 h2
              injection h2 with h3
              rw [h3]
            | succ j' =>
              have := hall 0 (by omega)
              rw [Nat.add_zero, ha] at this
              simp [retriable] at this
        | none =>
          have hred : tx_send_from attempts i (n + 1) = tx_send_from attempts (i + 1) n := by
            simp [tx_send_from, ha]
          rw [hred, ih (i + 1)]
          exact fallthrough_step attempts h n i (by rw [ha]; rfl)
      · have hred : tx_send_from attempts i (n + 1) = tx_send_from attempts (i + 1) n := by
          simp [tx_send_from, ha, hc]
        rw [hred, ih (i + 1)]
        refine fallthrough_step attempts h n i ?_
        rw [ha]
        simp [retriable, hc]

/-- The retry loop only inspects the attempts within its budget. -/
theorem tx_send_from_congr (a b : Nat → AttemptOutcome) :
    ∀ n i, (∀ j, j < n → a (i + j) = b (i + j)) →
      tx_send_from a i n = tx_send_from b i n := by
  intro n
  induction n with
  | zero =>
    intro i _
    rfl
  | succ n ih =>
    intro i hagree
    have h0 : a i = b i := by
      have := hagree 0 (by omega)
      simpa using this
    have hagree' : ∀ j, j < n → a (i + 1 + j) = b (i + 1 + j) := by
      intro j hj
      have := hagree (j + 1) (by omega)
      have e : i + (j + 1) = i + 1 + j := by omega
      rw [e] at this
      exact this
    simp only [tx_send_from]
    rw [← h0]
    cases ha : a i with
    | callError => rfl
    | badResponse => exact ih (i + 1) hagree'
    | response code txhash =>
      by_cases hc : code = 0
      · subst hc
        cases txhash with
        | some h0 => simp
        | none =>
          simp only [if_pos rfl]
          exact ih (i + 1) hagree'
      · simp only [if_neg hc]
        exact ih (i + 1) hagree'

/-- Claim C10: tx_send performs at most five submission attempts (its result
depends only on the first five attempt outcomes); it returns a hash exactly
when some attempt within the five is a response with code 0 carrying a hash
and every earlier attempt fell through for a retriable reason (non-zero
code, or an unreadable response); and it raises when none of the five
attempts yields such a response. -/
theorem tx_send_spec :
    (∀ a b : Nat → AttemptOutcome, (∀ i, i < 5 → a i = b i) → tx_send a = tx_send b) ∧
    (∀ (a : Nat → AttemptOutcome) (h : String),
       tx_send a = Except.ok h ↔
         ∃ i, i < 5 ∧ a i = AttemptOutcome.response 0 (some h) ∧
           ∀ j, j < i → retriable (a j) = true) ∧
    (∀ a : Nat → AttemptOutcome,
       (∀ i, i < 5 → ∀ hsh, a i ≠ AttemptOutcome.response 0 (some hsh)) →
       ∃ e, tx_send a = Except.error e) := by
  refine ⟨?_, ?_, ?_⟩
  · intro a b hab
    exact tx_send_from_congr a b 5 0 (fun j hj => by simpa using hab j hj)
  · intro a h
    have := tx_send_from_ok_iff a h 5 0
    simpa [tx_send] using this
  · intro a hnone
    cases htx : tx_send a with
    | error e => exact ⟨e, rfl⟩
    | ok h =>
      exfalso
      rcases (tx_send_from_ok_iff a h 5 0).mp htx with ⟨j, hj, hresp, -⟩
      rw [Nat.zero_add] at hresp
      exact hnone j hj h hresp

/-- A concrete attempt oracle: an unreadable response, then a non-zero code,
then a code-0 response carrying a hash. -/
def attemptsW : Nat → AttemptOutcome := fun i =>
  if i = 0 then AttemptOutcome.badResponse
  else if i = 1 then AttemptOutcome.response 1 (some "x")
  else AttemptOutcome.response 0 (some "HASH")

/-- Witness for C10: the third attempt succeeds after two retriable ones. -/
theorem tx_send_spec_witness : tx_send attemptsW = Except.ok "HASH" :=
  (tx_send_spec.2.1 attemptsW "HASH").mpr ⟨2, by decide, by decide, by decide⟩
